import Mathlib

/-!
A verification development for the ACME engine (`src/ACME.js`, v4.0.0): a
shallow embedding of its rule registry, rulesheet compiler, physics
integrator, entity pool and level parser, with theorems about the claims of
the specification.

Modelling conventions:
* JS `BigInt` bit masks are `Nat` (arbitrary precision, non-negative in all
  uses here); `|`, `&`, `<<`, `>>` become `|||`, `&&&`, `<<<`, `/ 2`.
* JS numbers are modelled as `Rat`; the claims under study involve only small
  integral values and exact decimal constants, never float rounding.
* A thrown JS value is an `Except` error; `JsError` distinguishes a `throw`
  of a message string from the engine, a `ReferenceError` (reading an
  undeclared identifier), a `TypeError` (member access on `null`/`undefined`)
  and a `RangeError` (invalid array length).
* Behaviour code payloads (the movement / collision snippet texts held by the
  registry) are opaque type parameters `α` (collision) and `β` (movement), so
  that each theorem can instantiate them with semantic functions or with
  plain tags as needed.
-/

deriving instance DecidableEq for Except

namespace ACME

/-- An abnormal completion of a piece of the JS source. -/
inductive JsError where
  /-- an engine `throw` of a message string -/
  | thrown (msg : String)
  /-- reading an identifier that is declared nowhere in scope -/
  | referenceError (id : String)
  /-- member access on `null`/`undefined`, or calling a non-function -/
  | typeError (msg : String)
  /-- an invalid array length assignment -/
  | rangeError (msg : String)
  deriving Repr, DecidableEq

/-- Rule-name normalisation used throughout the registry:
`name.toUpperCase().replace(/[^A-Za-z0-9$_]/g, "_")`. -/
def normalize (s : String) : String :=
  String.mk (s.data.map fun ch =>
    let up := ch.toUpper
    if up.isAlphanum || up == '$' || up == '_' then up else '_')

/-- The `bitmasks.movement` record: accumulating per-axis masks. -/
structure MovementMasks where
  x : Nat
  y : Nat
  deriving Repr, DecidableEq

/-- The `bitmasks.collisions` record: accumulating per-side masks. -/
structure CollisionMasks where
  top : Nat
  right : Nat
  bottom : Nat
  left : Nat
  deriving Repr, DecidableEq

/-- The module-level `bitmasks` object. -/
structure Bitmasks where
  movement : MovementMasks
  collisions : CollisionMasks
  deriving Repr, DecidableEq

/-- The module-level mutable registry state: the ordered behaviour lists
`collisions` and `movements`, the constant tables `coll_consts` and
`move_consts` (name-to-bit, modelled as association lists where the head
binding shadows older ones, matching JS property overwrite), and the side
bitmasks.  Collision code payloads have type `α`, movement payloads `β`. -/
structure RegistryState (α β : Type) where
  collisions : List α
  movements : List β
  coll_consts : List (String × Nat)
  move_consts : List (String × Nat)
  bitmasks : Bitmasks
  deriving DecidableEq

/-- The registry before any module runs: empty lists, all masks `0n`. -/
def initState : RegistryState α β :=
  { collisions := []
    movements := []
    coll_consts := []
    move_consts := []
    bitmasks :=
      { movement := { x := 0, y := 0 }
        collisions := { top := 0, right := 0, bottom := 0, left := 0 } } }

/-- A config object for `createCollisionRule` / `createMovementRule`:
`name`, optional explicit `value`, and the behaviour `code` payload. -/
structure RuleConfig (γ : Type) where
  name : String
  value : Option Nat
  code : γ

/-- A config object for the shorthand constructors and editors.  `rules` is
`none` when the JS config object has no `rules` property at all. -/
structure ShorthandConfig where
  name : String
  rules : Option (List String)

/-- The accumulation loop shared by every shorthand/bitmask builder: iterate
the rule-name list from the last element to the first, and OR in the bit of
each name that is registered in `consts` (unknown names are skipped without
an error). -/
def orBitsInto (consts : List (String × Nat)) (init : Nat) (rs : List String) : Nat :=
  rs.reverse.foldl
    (fun num r =>
      match consts.lookup (normalize r) with
      | some b => num ||| b
      | none => num)
    init

/-- `createCollisionRule` (ACME.js 163-169): bit = explicit `value` if
present, else `1n << collisions.length`; an empty/missing name throws before
any mutation; otherwise the code is appended and the normalised name bound. -/
def createCollisionRule (cfg : RuleConfig α) (st : RegistryState α β) :
    Except JsError (Nat × RegistryState α β) :=
  let num := match cfg.value with
    | some v => v
    | none => 1 <<< st.collisions.length
  if cfg.name = "" then
    .error (.thrown "ACME_Internal_Error: Failed to create collision rule. A name must be provided.")
  else
    .ok (num,
      { st with
        collisions := st.collisions ++ [cfg.code]
        coll_consts := (normalize cfg.name, num) :: st.coll_consts })

/-- `createMovementRule` (ACME.js 175-181): the movement twin of
`createCollisionRule`. -/
def createMovementRule (cfg : RuleConfig β) (st : RegistryState α β) :
    Except JsError (Nat × RegistryState α β) :=
  let num := match cfg.value with
    | some v => v
    | none => 1 <<< st.movements.length
  if cfg.name = "" then
    .error (.thrown "ACME_Internal_Error: Failed to create movement rule. A name must be provided.")
  else
    .ok (num,
      { st with
        movements := st.movements ++ [cfg.code]
        move_consts := (normalize cfg.name, num) :: st.move_consts })

/-- `createCollisionShorthand` (ACME.js 187-199): ORs together the bits of
the referenced names that are registered (silently skipping unknown names)
and binds the result under the new normalised name. -/
def createCollisionShorthand (cfg : ShorthandConfig) (st : RegistryState α β) :
    Except JsError (Nat × RegistryState α β) :=
  if cfg.name = "" then
    .error (.thrown "ACME_Internal_Error: Failed to create collision shorthand. A name must be provided.")
  else
    match cfg.rules with
    | none =>
        .error (.thrown "ACME_Internal_Error: Failed to create collision shorthand.  A list of rules must be provided.")
    | some rs =>
        let num := orBitsInto st.coll_consts 0 rs
        .ok (num, { st with coll_consts := (normalize cfg.name, num) :: st.coll_consts })

/-- `createMovementShorthand` (ACME.js 205-217): the movement twin. -/
def createMovementShorthand (cfg : ShorthandConfig) (st : RegistryState α β) :
    Except JsError (Nat × RegistryState α β) :=
  if cfg.name = "" then
    .error (.thrown "ACME_Internal_Error: Failed to create movement shorthand. A name must be provided.")
  else
    match cfg.rules with
    | none =>
        .error (.thrown "ACME_Internal_Error: Failed to create movement shorthand.  A list of rules must be provided.")
    | some rs =>
        let num := orBitsInto st.move_consts 0 rs
        .ok (num, { st with move_consts := (normalize cfg.name, num) :: st.move_consts })

/-- `editCollisionShorthand` (ACME.js 223-236): throws the
unknown-shorthand error when the normalised name is not in `coll_consts`;
otherwise ORs the additional registered bits into the current value and
rebinds the name to the enlarged mask. -/
def editCollisionShorthand (cfg : ShorthandConfig) (st : RegistryState α β) :
    Except JsError (Nat × RegistryState α β) :=
  if cfg.name = "" then
    .error (.thrown "ACME_Internal_Error: Failed to modify collision shorthand.  A name must be provided.")
  else
    let name := normalize cfg.name
    match st.coll_consts.lookup name with
    | none =>
        .error (.thrown "ACME_Internal_Error: Failed to modify collision shorthand.  No such shorthand exists.")
    | some cur =>
        match cfg.rules with
        | none =>
            .error (.thrown "ACME_Internal_Error: Failed to modify collision shorthand.  A list of rules must be provided.")
        | some rs =>
            let num := orBitsInto st.coll_consts cur rs
            .ok (num, { st with coll_consts := (name, num) :: st.coll_consts })

/-- `editMovementShorthand` (ACME.js 242-256).  After the name check the
source tests `if (!(name in constants))` - but the identifier `constants` is
declared nowhere in the library's scope (the collision twin at line 226 and
the second build `ACME_pjs.js` line 158 read `move_consts` here), so
evaluating the guard raises a `ReferenceError` before any table is
consulted, for registered and unregistered names alike. -/
def editMovementShorthand (cfg : ShorthandConfig) (_st : RegistryState α β) :
    Except JsError (Nat × RegistryState α β) :=
  if cfg.name = "" then
    .error (.thrown "ACME_Internal_Error: Failed to create movement shorthand. A name must be provided.")
  else
    .error (.referenceError "constants")

/-- A config object for `editCollisionBitmasks`; a side is `none` when the
property is absent, falsy, or not an `Array`. -/
structure SideListsConfig where
  top : Option (List String)
  left : Option (List String)
  bottom : Option (List String)
  right : Option (List String)

/-- `editCollisionBitmasks` (ACME.js 262-293): for each present side list
(processed in source order top, left, bottom, right) OR the bits of the
registered names into the accumulating side mask; unknown names skipped. -/
def editCollisionBitmasks (cfg : SideListsConfig) (st : RegistryState α β) :
    RegistryState α β :=
  let bm := st.bitmasks.collisions
  let bm := match cfg.top with
    | some l => { bm with top := orBitsInto st.coll_consts bm.top l }
    | none => bm
  let bm := match cfg.left with
    | some l => { bm with left := orBitsInto st.coll_consts bm.left l }
    | none => bm
  let bm := match cfg.bottom with
    | some l => { bm with bottom := orBitsInto st.coll_consts bm.bottom l }
    | none => bm
  let bm := match cfg.right with
    | some l => { bm with right := orBitsInto st.coll_consts bm.right l }
    | none => bm
  { st with bitmasks := { st.bitmasks with collisions := bm } }

/-- A config object for `editMovementBitmasks`. -/
structure AxisListsConfig where
  x : Option (List String)
  y : Option (List String)

/-- `editMovementBitmasks` (ACME.js 299-316): the movement twin, processing
`y` then `x`. -/
def editMovementBitmasks (cfg : AxisListsConfig) (st : RegistryState α β) :
    RegistryState α β :=
  let bm := st.bitmasks.movement
  let bm := match cfg.y with
    | some l => { bm with y := orBitsInto st.move_consts bm.y l }
    | none => bm
  let bm := match cfg.x with
    | some l => { bm with x := orBitsInto st.move_consts bm.x l }
    | none => bm
  { st with bitmasks := { st.bitmasks with movement := bm } }

/-- The OR of the bits of exactly the registered names of `rs`, written the
way the specification words it (unregistered names contribute nothing). -/
def specOrRegistered (consts : List (String × Nat)) (rs : List String) : Nat :=
  rs.foldr (fun r acc => ((consts.lookup (normalize r)).getD 0) ||| acc) 0

lemma orBitsInto_cons (consts : List (String × Nat)) (init : Nat) (r : String)
    (rs : List String) :
    orBitsInto consts init (r :: rs) =
      orBitsInto consts init rs ||| ((consts.lookup (normalize r)).getD 0) := by
  unfold orBitsInto
  rw [List.reverse_cons, List.foldl_append]
  simp only [List.foldl_cons, List.foldl_nil]
  cases consts.lookup (normalize r) <;> simp

lemma orBitsInto_eq_lor (consts : List (String × Nat)) (init : Nat) (rs : List String) :
    orBitsInto consts init rs = init ||| specOrRegistered consts rs := by
  induction rs with
  | nil => simp [orBitsInto, specOrRegistered]
  | cons r rs ih =>
      rw [orBitsInto_cons, ih,
        show specOrRegistered consts (r :: rs)
            = ((consts.lookup (normalize r)).getD 0) ||| specOrRegistered consts rs from rfl,
        Nat.lor_assoc, Nat.lor_comm (specOrRegistered consts rs)]

lemma orBitsInto_zero (consts : List (String × Nat)) (rs : List String) :
    orBitsInto consts 0 rs = specOrRegistered consts rs := by
  rw [orBitsInto_eq_lor]
  exact Nat.zero_or _

/-- Claim C8: for every rule-name list passed to shorthand creation (either
namespace) or to a side-bitmask edit, unregistered names are silently
skipped - no error is raised - and the resulting mask is exactly the OR of
the bits of the registered names (for the bitmask editors, OR'd on top of
the previously accumulated side mask). -/
theorem shorthand_and_bitmask_silent_skip {α β : Type}
    (st : RegistryState α β) (name : String)
    (rs ts ls bs rts xs ys : List String) (hn : name ≠ "") :
    (createCollisionShorthand ⟨name, some rs⟩ st =
      .ok (specOrRegistered st.coll_consts rs,
        { st with coll_consts :=
            (normalize name, specOrRegistered st.coll_consts rs) :: st.coll_consts })) ∧
    (createMovementShorthand ⟨name, some rs⟩ st =
      .ok (specOrRegistered st.move_consts rs,
        { st with move_consts :=
            (normalize name, specOrRegistered st.move_consts rs) :: st.move_consts })) ∧
    ((editCollisionBitmasks ⟨some ts, some ls, some bs, some rts⟩ st).bitmasks.collisions =
      { top := st.bitmasks.collisions.top ||| specOrRegistered st.coll_consts ts
        right := st.bitmasks.collisions.right ||| specOrRegistered st.coll_consts rts
        bottom := st.bitmasks.collisions.bottom ||| specOrRegistered st.coll_consts bs
        left := st.bitmasks.collisions.left ||| specOrRegistered st.coll_consts ls }) ∧
    ((editMovementBitmasks ⟨some xs, some ys⟩ st).bitmasks.movement =
      { x := st.bitmasks.movement.x ||| specOrRegistered st.move_consts xs
        y := st.bitmasks.movement.y ||| specOrRegistered st.move_consts ys }) := by
  refine ⟨?_, ?_, ?_, ?_⟩
  · simp only [createCollisionShorthand, if_neg hn, orBitsInto_zero]
  · simp only [createMovementShorthand, if_neg hn, orBitsInto_zero]
  · simp only [editCollisionBitmasks, orBitsInto_eq_lor]
  · simp only [editMovementBitmasks, orBitsInto_eq_lor]

/-- Running a whole sequence of `createCollisionRule` definitions in order,
collecting the returned bits; a throw aborts the remainder of the sequence. -/
def runCollisionDefs : List (RuleConfig α) → RegistryState α β →
    Except JsError (List Nat × RegistryState α β)
  | [], st => .ok ([], st)
  | cfg :: rest, st =>
    match createCollisionRule cfg st with
    | .error e => .error e
    | .ok (b, st') =>
      match runCollisionDefs rest st' with
      | .error e => .error e
      | .ok (bs, st'') => .ok (b :: bs, st'')

/-- Running a whole sequence of `createMovementRule` definitions in order. -/
def runMovementDefs : List (RuleConfig β) → RegistryState α β →
    Except JsError (List Nat × RegistryState α β)
  | [], st => .ok ([], st)
  | cfg :: rest, st =>
    match createMovementRule cfg st with
    | .error e => .error e
    | .ok (b, st') =>
      match runMovementDefs rest st' with
      | .error e => .error e
      | .ok (bs, st'') => .ok (b :: bs, st'')

lemma createCollisionRule_auto (cfg : RuleConfig α) (st : RegistryState α β)
    (hname : cfg.name ≠ "") (hval : cfg.value = none) :
    createCollisionRule cfg st =
      .ok (2 ^ st.collisions.length,
        { st with
          collisions := st.collisions ++ [cfg.code]
          coll_consts := (normalize cfg.name, 2 ^ st.collisions.length) :: st.coll_consts }) := by
  simp only [createCollisionRule, hval, if_neg hname, Nat.shiftLeft_eq, Nat.one_mul]

lemma createMovementRule_auto (cfg : RuleConfig β) (st : RegistryState α β)
    (hname : cfg.name ≠ "") (hval : cfg.value = none) :
    createMovementRule cfg st =
      .ok (2 ^ st.movements.length,
        { st with
          movements := st.movements ++ [cfg.code]
          move_consts := (normalize cfg.name, 2 ^ st.movements.length) :: st.move_consts }) := by
  simp only [createMovementRule, hval, if_neg hname, Nat.shiftLeft_eq, Nat.one_mul]

lemma pow_shift_comp (k : Nat) :
    (fun n => 2 ^ (k + 1 + n)) = ((fun n => 2 ^ (k + n)) ∘ Nat.succ) := by
  funext n
  show 2 ^ (k + 1 + n) = 2 ^ (k + (n + 1))
  exact congrArg (2 ^ ·) (by omega)

lemma runCollisionDefs_auto_bits (cfgs : List (RuleConfig α))
    (hn : ∀ c ∈ cfgs, c.name ≠ "") (hv : ∀ c ∈ cfgs, c.value = none)
    (st : RegistryState α β) :
    ∃ st', runCollisionDefs cfgs st =
      .ok ((List.range cfgs.length).map (fun n => 2 ^ (st.collisions.length + n)), st') := by
  induction cfgs generalizing st with
  | nil => exact ⟨st, rfl⟩
  | cons cfg rest ih =>
      obtain ⟨st', hrest⟩ := ih (fun c hc => hn c (List.mem_cons_of_mem _ hc))
        (fun c hc => hv c (List.mem_cons_of_mem _ hc))
        { st with
          collisions := st.collisions ++ [cfg.code]
          coll_consts := (normalize cfg.name, 2 ^ st.collisions.length) :: st.coll_consts }
      refine ⟨st', ?_⟩
      simp only [runCollisionDefs,
        createCollisionRule_auto cfg st (hn cfg (List.mem_cons_self _ _))
          (hv cfg (List.mem_cons_self _ _)), hrest,
        List.length_append, List.length_cons, List.length_nil, Nat.zero_add,
        List.range_succ_eq_map, List.map_cons, List.map_map, Nat.add_zero]
      rw [pow_shift_comp]

lemma runMovementDefs_auto_bits (cfgs : List (RuleConfig β))
    (hn : ∀ c ∈ cfgs, c.name ≠ "") (hv : ∀ c ∈ cfgs, c.value = none)
    (st : RegistryState α β) :
    ∃ st', runMovementDefs cfgs st =
      .ok ((List.range cfgs.length).map (fun n => 2 ^ (st.movements.length + n)), st') := by
  induction cfgs generalizing st with
  | nil => exact ⟨st, rfl⟩
  | cons cfg rest ih =>
      obtain ⟨st', hrest⟩ := ih (fun c hc => hn c (List.mem_cons_of_mem _ hc))
        (fun c hc => hv c (List.mem_cons_of_mem _ hc))
        { st with
          movements := st.movements ++ [cfg.code]
          move_consts := (normalize cfg.name, 2 ^ st.movements.length) :: st.move_consts }
      refine ⟨st', ?_⟩
      simp only [runMovementDefs,
        createMovementRule_auto cfg st (hn cfg (List.mem_cons_self _ _))
          (hv cfg (List.mem_cons_self _ _)), hrest,
        List.length_append, List.length_cons, List.length_nil, Nat.zero_add,
        List.range_succ_eq_map, List.map_cons, List.map_map, Nat.add_zero]
      rw [pow_shift_comp]

/-- Claim C6: in a fresh namespace (collision or movement), a sequence of
rule definitions none of which passes an explicit value assigns the Nth
defined rule (counting from 0) the bit `1 <<< N`; and whenever an explicit
value is passed, that value is assigned instead of the counter-derived
bit. -/
theorem rule_bit_assignment {α β : Type}
    (cfgs : List (RuleConfig α)) (mfgs : List (RuleConfig β))
    (hcn : ∀ c ∈ cfgs, c.name ≠ "") (hcv : ∀ c ∈ cfgs, c.value = none)
    (hmn : ∀ c ∈ mfgs, c.name ≠ "") (hmv : ∀ c ∈ mfgs, c.value = none) :
    (∃ st', runCollisionDefs cfgs (initState (α := α) (β := β)) =
        .ok ((List.range cfgs.length).map (fun n => 2 ^ n), st')) ∧
    (∃ st', runMovementDefs mfgs (initState (α := α) (β := β)) =
        .ok ((List.range mfgs.length).map (fun n => 2 ^ n), st')) ∧
    (∀ (cfg : RuleConfig α) (st : RegistryState α β) (v : Nat),
        cfg.value = some v → cfg.name ≠ "" →
        ∃ st', createCollisionRule cfg st = .ok (v, st')) ∧
    (∀ (cfg : RuleConfig β) (st : RegistryState α β) (v : Nat),
        cfg.value = some v → cfg.name ≠ "" →
        ∃ st', createMovementRule cfg st = .ok (v, st')) := by
  refine ⟨?_, ?_, ?_, ?_⟩
  · simpa [initState] using runCollisionDefs_auto_bits cfgs hcn hcv initState
  · simpa [initState] using runMovementDefs_auto_bits mfgs hmn hmv initState
  · intro cfg st v hv hn
    exact ⟨{ st with
        collisions := st.collisions ++ [cfg.code]
        coll_consts := (normalize cfg.name, v) :: st.coll_consts },
      by simp only [createCollisionRule, hv, if_neg hn]⟩
  · intro cfg st v hv hn
    exact ⟨{ st with
        movements := st.movements ++ [cfg.code]
        move_consts := (normalize cfg.name, v) :: st.move_consts },
      by simp only [createMovementRule, hv, if_neg hn]⟩

/-- Concrete instance of the C6 theorem: two value-free collision rules get
bits 1 and 2; a rule with explicit value 7 gets 7. -/
theorem rule_bit_assignment_witness :
    (∃ st', runCollisionDefs [⟨"a", none, 0⟩, ⟨"b", none, 0⟩]
        (initState (α := Nat) (β := Nat)) = .ok ([1, 2], st')) ∧
    (∃ st', createCollisionRule ⟨"c", some 7, 0⟩ (initState (α := Nat) (β := Nat)) =
        .ok (7, st')) := by
  obtain ⟨⟨st1, h1⟩, -, h3, -⟩ :=
    rule_bit_assignment (β := Nat) [⟨"a", none, 0⟩, ⟨"b", none, 0⟩] ([] : List (RuleConfig Nat))
      (by decide) (by decide) (by simp) (by simp)
  refine ⟨⟨st1, ?_⟩, h3 ⟨"c", some 7, 0⟩ initState 7 rfl (by decide)⟩
  have hbits :
      (List.range ([⟨"a", none, 0⟩, ⟨"b", none, 0⟩] : List (RuleConfig Nat)).length).map
        (fun n => 2 ^ n) = [1, 2] := by decide
  rw [← hbits]
  exact h1

/-- A registry built through the registry operations themselves: collision
rules `bar -> 1` and `extra -> 2`, movement rule `foo -> 1`. -/
def stC3E : Except JsError (RegistryState Nat Nat) := do
  let (_, st) ← createCollisionRule ⟨"bar", none, 0⟩ initState
  let (_, st) ← createCollisionRule ⟨"extra", none, 0⟩ st
  let (_, st) ← createMovementRule ⟨"foo", none, 0⟩ st
  pure st

/-- The registry fixture of `stC3E`, unwrapped. -/
def stC3 : RegistryState Nat Nat := stC3E.toOption.getD initState

/-- Claim C3, at the failing input: `FOO` is registered in `move_consts`,
yet `editMovementShorthand` still fails - with a `ReferenceError` on the
undeclared identifier `constants`, not with the unknown-shorthand error -
while the collision twin `editCollisionShorthand` behaves as the claim says
(ORs the extra registered bit into the existing mask, here 1 ||| 2 = 3). -/
theorem editMovementShorthand_reference_error :
    stC3.move_consts.lookup "FOO" = some 1 ∧
    editMovementShorthand ⟨"foo", some ["foo"]⟩ stC3 = .error (.referenceError "constants") ∧
    editCollisionShorthand ⟨"bar", some ["extra"]⟩ stC3 =
      .ok (3, { stC3 with coll_consts := ("BAR", 3) :: stC3.coll_consts }) := by
  refine ⟨by decide, by decide, by decide⟩

/-- A concrete registry fixture: one collision rule `A -> 1`, and a
pre-existing top side-mask of `4`. -/
def stC8 : RegistryState Nat Nat :=
  { initState with
    coll_consts := [("A", 1)]
    bitmasks :=
      { movement := { x := 0, y := 0 }
        collisions := { top := 4, right := 0, bottom := 0, left := 0 } } }

/-- Concrete instance of the C8 theorem: with only `A -> 1` registered, the
list `["A", "NOPE"]` yields mask `1` with no error, and the side-bitmask
edit with the same list ORs `1` into a pre-existing top mask `4`. -/
theorem shorthand_and_bitmask_silent_skip_witness :
    (∃ st', createCollisionShorthand ⟨"S", some ["A", "NOPE"]⟩ stC8 = .ok (1, st')) ∧
    (editCollisionBitmasks ⟨some ["A", "NOPE"], some [], some [], some []⟩
        stC8).bitmasks.collisions.top = 5 := by
  obtain ⟨h1, -, h3, -⟩ :=
    shorthand_and_bitmask_silent_skip stC8 "S" ["A", "NOPE"] ["A", "NOPE"] [] [] [] [] []
      (by decide)
  refine ⟨⟨{ stC8 with coll_consts :=
      (normalize "S", specOrRegistered stC8.coll_consts ["A", "NOPE"]) :: stC8.coll_consts },
      h1.trans (by decide)⟩, ?_⟩
  rw [h3]
  decide

/-- The follow-rule ghost snapshot: a bounding box.  The JS object created
by `Component.init` has exactly the members x, y, width, height (notably it
has no `dsq` member). -/
structure Ghost where
  x : Rat
  y : Rat
  width : Rat
  height : Rat
  deriving Repr, DecidableEq

/-- The mutable simulation state of a `Component` (entity), restricted to
its data fields.  The JS object additionally caches its rulesheet's compiled
routine references (`moveX`, `collideX`, ..., `tick`, `onDestroy`,
`graphics`, `controls`); those are modelled separately (`Hooks`,
`TickHook`) because they are functions, not data.  `followee` is a
reference to another live component; it is modelled by that component's
bounding box, the only fields ever read through the reference. -/
structure Component where
  key : String := ""
  index : Nat := 0
  dead : Bool := false
  health : Rat := 100
  x : Rat := 0
  y : Rat := 0
  originX : Rat := 0
  originY : Rat := 0
  width : Rat := 1
  height : Rat := 1
  originW : Rat := 1
  originH : Rat := 1
  velX : Rat := 0
  velY : Rat := 0
  accX : Rat := 0
  accY : Rat := 0
  speedX : Rat := 0
  speedY : Rat := 0
  gravity : Rat := 0
  friction : Rat := 0
  canJump : Bool := false
  flag0 : Bool := false
  flag1 : Bool := false
  flag2 : Bool := false
  flag3 : Bool := false
  resetsWithRest : Bool := false
  followee : Option Ghost := none
  ghost : Ghost := { x := 0, y := 0, width := 0, height := 0 }
  deriving Repr, DecidableEq

/-- The per-entity routine references read by `Component.update`: the
rulesheet tick hook (`this.code.tick`) and the cached compiled movement,
collision and destroy routines.  They are arbitrary state transformers
here; hooks that throw abort the tick and are outside this model. -/
structure Hooks where
  tick : Component → Component
  moveY : Component → Component
  collideY : Component → Component
  moveX : Component → Component
  collideX : Component → Component
  onDestroy : Component → Component

/-- The death test `this.dead || this.health <= 0` of `Component.update`. -/
def deadOrDrained (c : Component) : Bool :=
  c.dead || decide (c.health ≤ 0)

/-- `Component.update` (ACME.js 1032-1051), the per-tick integrator:
tick hook; Y movement; `y += velY`; Y collision; then, if dead or drained,
destroy hook, mark dead and return 1 (skipping the X phase); otherwise
X movement; `x += velX`; X collision; re-check health and death (running
the destroy hook if dead) and return the final death status. -/
def Component.update (h : Hooks) (c : Component) : Component × Int :=
  let c := h.tick c
  let c := h.moveY c
  let c := { c with y := c.y + c.velY }
  let c := h.collideY c
  if c.dead || decide (c.health ≤ 0) then
    let c := h.onDestroy c
    ({ c with dead := true }, 1)
  else
    let c := h.moveX c
    let c := { c with x := c.x + c.velX }
    let c := h.collideX c
    let c := if decide (c.health ≤ 0) then { c with dead := true } else c
    let c := if c.dead then h.onDestroy c else c
    (c, if c.dead then 1 else 0)

/-- The Y phase of one `update` tick: tick hook, Y movement, integration,
Y collision. -/
def Component.yPhase (h : Hooks) (c : Component) : Component :=
  let c := h.tick c
  let c := h.moveY c
  let c := { c with y := c.y + c.velY }
  h.collideY c

/-- The X phase of one `update` tick, entered only when the Y phase left
the entity alive. -/
def Component.xPhase (h : Hooks) (c : Component) : Component × Int :=
  let c := h.moveX c
  let c := { c with x := c.x + c.velX }
  let c := h.collideX c
  let c := if decide (c.health ≤ 0) then { c with dead := true } else c
  let c := if c.dead then h.onDestroy c else c
  (c, if c.dead then 1 else 0)

lemma update_eq_phases (h : Hooks) (c : Component) :
    Component.update h c =
      if deadOrDrained (Component.yPhase h c) then
        ({ h.onDestroy (Component.yPhase h c) with dead := true }, 1)
      else
        Component.xPhase h (Component.yPhase h c) := rfl

/-- Claim C1: one `update` tick runs the Y phase (tick hook, Y movement,
integration, Y collision) first; if the entity is then dead or its health
is at most 0, the destroy hook fires, the entity is marked dead, `update`
returns the truthy status 1, and the result is independent of the X
routines (`moveX`, `collideX` are never consulted: any hooks record
agreeing on the other five routines produces the same result); otherwise
the X phase runs on the Y-phase state and death is re-checked there. -/
theorem update_phase_order (h h2 : Hooks) (c : Component)
    (ht : h2.tick = h.tick) (hmy : h2.moveY = h.moveY)
    (hcy : h2.collideY = h.collideY) (hod : h2.onDestroy = h.onDestroy) :
    (deadOrDrained (Component.yPhase h c) = true →
      Component.update h c = ({ h.onDestroy (Component.yPhase h c) with dead := true }, 1) ∧
      Component.update h2 c = Component.update h c) ∧
    (deadOrDrained (Component.yPhase h c) = false →
      Component.update h c = Component.xPhase h (Component.yPhase h c)) := by
  have hy : Component.yPhase h2 c = Component.yPhase h c := by
    unfold Component.yPhase
    rw [ht, hmy, hcy]
  constructor
  · intro hdead
    refine ⟨?_, ?_⟩
    · rw [update_eq_phases, hdead]
      simp
    · rw [update_eq_phases h2 c, hy, hdead, hod, update_eq_phases h c, hdead]
      simp
  · intro halive
    rw [update_eq_phases, halive]
    simp

/-- Hooks fixture: the Y collision routine kills the entity. -/
def hooksKillY : Hooks :=
  { tick := fun c => c
    moveY := fun c => c
    collideY := fun c => { c with dead := true }
    moveX := fun c => c
    collideX := fun c => c
    onDestroy := fun c => c }

/-- The same hooks with X routines that would visibly move the entity if
they ever ran. -/
def hooksKillY2 : Hooks :=
  { hooksKillY with
    moveX := fun c => { c with x := c.x + 50 }
    collideX := fun c => { c with x := c.x + 500 } }

/-- Concrete instance of the C1 theorem: with a killing Y-collision routine
the tick marks the default entity dead, returns 1, and replacing the X
routines does not change the result. -/
theorem update_phase_order_witness :
    Component.update hooksKillY {} = ({ dead := true }, 1) ∧
    Component.update hooksKillY2 {} = Component.update hooksKillY {} := by
  obtain ⟨hd, -⟩ := update_phase_order hooksKillY hooksKillY2 {} rfl rfl rfl rfl
  obtain ⟨e1, e2⟩ := hd (by simp [deadOrDrained, Component.yPhase, hooksKillY])
  refine ⟨e1.trans ?_, e2⟩
  simp [hooksKillY, Component.yPhase]

/-- One side entry of a registered collision rule, mirroring the JS value's
runtime type: absent/`undefined`, a plain number, a `BigInt` mask, an inline
source string, or a callback function.  Inline strings and callbacks carry
an opaque payload `α`; a nonempty inline source text is assumed (the empty
string would be falsy in the source's guards). -/
inductive RuleVal (α : Type) where
  | udf
  | num (n : Rat)
  | mask (m : Nat)
  | str (f : α)
  | fn (f : α)
  deriving Repr, DecidableEq

/-- JS truthiness of a side entry: `undefined` and `0`/`0n` are falsy. -/
def RuleVal.truthy : RuleVal α → Bool
  | .udf => false
  | .num n => !decide (n = 0)
  | .mask m => !decide (m = 0)
  | .str _ => true
  | .fn _ => true

/-- The per-neighbour-key record `{top, right, bottom, left}` stored in
`collideRules`. -/
structure SideRules (α : Type) where
  top : RuleVal α
  right : RuleVal α
  bottom : RuleVal α
  left : RuleVal α
  deriving Repr, DecidableEq

/-- The `collideRules` field: the `bitmap` (static/tile) and `component`
(entity-vs-entity) sub-tables, keyed by neighbour key in insertion order. -/
structure CollideRules (α : Type) where
  bitmap : List (String × SideRules α)
  component : List (String × SideRules α)
  deriving Repr, DecidableEq

/-- The branch body emitted for one side of a per-key `case`: nothing (the
side was absent or a plain number, which matches no `typeof` case), the
bitmask expansion into behaviour fragments in ascending bit order, the
inline source verbatim, or a call through the stored callback. -/
inductive SideAction (α : Type) where
  | empty
  | codes (cs : List α)
  | inline (f : α)
  | callback (f : α)
  deriving Repr, DecidableEq

/-- The bit-expansion `while` loop of the compiler
(`while (rule > 0n && j < collisions.length) { if (rule & 1n) emit code[j]; rule >>= 1n; j++ }`):
returns the emitted fragments in ascending bit order, together with the
final value left in the (destructively shifted) rule variable - `0` when
the mask ran out first, the unconsumed high bits when the code list ran
out first. -/
def expandBits : List α → Nat → List α × Nat
  | _, 0 => ([], 0)
  | [], m => ([], m)
  | c :: cs, m =>
      let p := expandBits cs (m / 2)
      ((if m % 2 = 1 then [c] else []) ++ p.1, p.2)

/-- The analogous loop of `compileMovement`
(`while (rule > 0n && j < movements.length) ...`); here the shifted variable
is a local copy, so only the selected fragments matter. -/
def selectBits : List β → Nat → List β
  | _, 0 => []
  | [], _ => []
  | c :: cs, m => (if m % 2 = 1 then [c] else []) ++ selectBits cs (m / 2)

/-- Emit one side of a per-key branch: the action, the value left in the
stored side slot afterwards (`BigInt` sides are shifted in place through
the `rule` alias; every other type is untouched), and whether a `typeof`
case matched (this drives the `output` bits of `compileBitmapCollision`). -/
def emitSide (colls : List α) : RuleVal α → SideAction α × RuleVal α × Bool
  | .udf => (.empty, .udf, false)
  | .num n => (.empty, .num n, false)
  | .mask m =>
      let p := expandBits colls m
      (.codes p.1, .mask p.2, true)
  | .str f => (.inline f, .str f, true)
  | .fn f => (.callback f, .fn f, true)

/-- One pass of the compiler over a `collideRules` sub-table, shared by the
`component` loop of `compile` and the `bitmap` loop of
`compileBitmapCollision` (the two loops synthesise the same per-key
branches; only the bookkeeping differs).  Returns, in order: the sub-table
as left in place after the pass (with `BigInt` sides destructively
shifted), the Y-axis branch table (top/bottom pairs), the X-axis branch
table (right/left pairs), the `useX` and `useY` flags (set by the truthy
side guards), and the `output` presence code (bit 1 for X, bit 2 for Y,
set when a `typeof` case matched under a passing guard). -/
def bitmapPass (colls : List α) :
    List (String × SideRules α) →
    List (String × SideRules α) ×
    List (String × SideAction α × SideAction α) ×
    List (String × SideAction α × SideAction α) ×
    Bool × Bool × Nat
  | [] => ([], [], [], false, false, 0)
  | (k, r) :: rest =>
      let yGuard := r.top.truthy || r.bottom.truthy
      let xGuard := r.right.truthy || r.left.truthy
      let eTop := emitSide colls r.top
      let eBot := emitSide colls r.bottom
      let eRight := emitSide colls r.right
      let eLeft := emitSide colls r.left
      let r' : SideRules α :=
        { top := if yGuard then eTop.2.1 else r.top
          bottom := if yGuard then eBot.2.1 else r.bottom
          right := if xGuard then eRight.2.1 else r.right
          left := if xGuard then eLeft.2.1 else r.left }
      let p := bitmapPass colls rest
      let (rest', yT, xT, uX, uY, out) := p
      ((k, r') :: rest',
       (if yGuard then [(k, eTop.1, eBot.1)] else []) ++ yT,
       (if xGuard then [(k, eRight.1, eLeft.1)] else []) ++ xT,
       xGuard || uX,
       yGuard || uY,
       (if yGuard && (eTop.2.2 || eBot.2.2) then 2 else 0) |||
         (if xGuard && (eRight.2.2 || eLeft.2.2) then 1 else 0) ||| out)

/-- The movement selector held in `#moveRule.x` / `#moveRule.y`: the
constructor's plain number `0`, an undefined constant, a `BigInt` mask, an
inline source string, or a callback. -/
inductive MoveSel (β : Type) where
  | num (n : Rat)
  | udf
  | mask (m : Nat)
  | str (f : β)
  | fn (f : β)
  deriving Repr, DecidableEq

/-- The private `#moveRule` pair. -/
structure MoveSelPair (β : Type) where
  x : MoveSel β
  y : MoveSel β
  deriving Repr, DecidableEq

/-- A compiled movement routine: the initial `noop`, a single callable
(inline text wrapped by `Func`, or a callback used verbatim), or the
concatenation of the selected behaviour fragments in ascending bit
order. -/
inductive MoveCompiled (β : Type) where
  | noopF
  | fnc (f : β)
  | seq (cs : List β)
  deriving Repr, DecidableEq

/-- Semantics of a compiled movement routine over semantic fragments. -/
def runMove (mc : MoveCompiled (Component → Component)) (c : Component) : Component :=
  match mc with
  | .noopF => c
  | .fnc f => f c
  | .seq cs => cs.foldl (fun c f => f c) c

/-- The tick hooks the library itself installs on a rulesheet: the initial
`noop`, or the follow-ghost closure installed by `RuleSheet.follow`. -/
inductive TickHook where
  | noopT
  | followT
  deriving Repr, DecidableEq

/-- The per-tick closure installed by `RuleSheet.follow` (ACME.js 612-619).
Its guard in the source is `if (!$component.followee)`: the ghost copy runs
only when NO followee is tracked - and then the very first member read
`$component.followee.x` dereferences `null`, a `TypeError` - while a
tracked followee makes the guard false, so the hook returns with the ghost
snapshot untouched. -/
def followTick (c : Component) : Except JsError Component :=
  match c.followee with
  | none => .error (.typeError "cannot read properties of null")
  | some _ => .ok c

/-- Semantics of a rulesheet tick hook. -/
def runTick : TickHook → Component → Except JsError Component
  | .noopT, c => .ok c
  | .followT, c => followTick c

/-- The compiled pool-scan dispatch routine (`collideX`/`collideY`), as a
descriptor of the function text `compile` builds: whether the tile-scan
call is prepended (`this.scan`), whether the nearest-neighbour follow block
is inside the loop (`#mustFollow`), and the per-neighbour-key branch table
(side pairs: top/bottom for Y, right/left for X). -/
structure PoolDispatch (α : Type) where
  scanFirst : Bool
  follow : Bool
  table : List (String × SideAction α × SideAction α)
  deriving Repr, DecidableEq

/-- A rulesheet, with its scalar configuration, flags, declared rules and
compiled dispatch fields.  The compiled routine fields hold `none` while
they still carry their initial `noop`; the user-facing fields `callback`,
`controls`, `display` and `graphics` are opaque to every claim and are
omitted. -/
structure RuleSheet (α β : Type) where
  key : String
  defaultWidth : Rat := 1
  defaultHeight : Rat := 1
  hitboxPadding : Rat := 0
  accX : Rat := 0.01
  accY : Rat := 0.01
  speedX : Rat := 0.1
  speedY : Rat := 0.1
  gravity : Rat := 0.2
  friction : Rat := 0.9
  width : Rat := 1
  height : Rat := 1
  static : Bool := true
  resets : Bool := true
  scan : Bool := true
  dirty : Bool := false
  mustFollow : Bool := false
  followKey : Option String := none
  tick : TickHook := .noopT
  moveRule : MoveSelPair β := { x := .num 0, y := .num 0 }
  moveX : MoveCompiled β := .noopF
  moveY : MoveCompiled β := .noopF
  collideX : Option (PoolDispatch α) := none
  collideY : Option (PoolDispatch α) := none
  bitmapX : Option (List (String × SideAction α × SideAction α)) := none
  bitmapY : Option (List (String × SideAction α × SideAction α)) := none
  collideRules : CollideRules α := { bitmap := [], component := [] }
  deriving Repr, DecidableEq

/-- The `RuleSheet` constructor (ACME.js 440-478): fresh flags and rules,
`noop` routines, `#moveRule = {x: 0, y: 0}` (plain numbers), `#dirty` and
`#mustFollow` false. -/
def RuleSheet.new (key : String) : RuleSheet α β :=
  { key := key }

/-- The argument accepted by `RuleSheet.movement`: a `BigInt` combined
rule, an object with optional `x`/`y` selectors, or anything else (which
throws). -/
inductive MoveArg (β : Type) where
  | mask (m : Nat)
  | obj (x y : Option (MoveSel β))
  | invalid

/-- `RuleSheet.movement` (ACME.js 629-646): a `BigInt` rule is split
through the global `bitmasks.movement` x/y masks; an object's `x`/`y`
members are stored verbatim when present; anything else throws.  On
success the sheet is marked dirty and non-static. -/
def RuleSheet.movement (bm : Bitmasks) (s : RuleSheet α β) (rule : MoveArg β) :
    Except JsError (RuleSheet α β) :=
  match rule with
  | .mask m =>
      .ok { s with
        moveRule := { x := .mask (m &&& bm.movement.x), y := .mask (m &&& bm.movement.y) }
        dirty := true
        static := false }
  | .obj ox oy =>
      .ok { s with
        moveRule := { x := ox.getD s.moveRule.x, y := oy.getD s.moveRule.y }
        dirty := true
        static := false }
  | .invalid =>
      .error (.thrown "ACME_Rulesheet_Error: Failed to set movement rules on rulesheet: no data provided.")

/-- `RuleSheet.follow` (ACME.js 596-622): marks the sheet non-static and
following, records the followed key (a sheet argument contributes its
`key`), sets `#moveRule` to the `FOLLOW_X`/`FOLLOW_Y` constants looked up
in `move_consts` (each `undefined` when absent), installs the follow tick
closure and marks the sheet dirty. -/
def RuleSheet.follow (mc : List (String × Nat)) (s : RuleSheet α β) (key : String) :
    RuleSheet α β :=
  { s with
    static := false
    mustFollow := true
    followKey := some key
    moveRule :=
      { x := match mc.lookup "FOLLOW_X" with | some m => .mask m | none => .udf
        y := match mc.lookup "FOLLOW_Y" with | some m => .mask m | none => .udf }
    tick := .followT
    dirty := true }

/-- `RuleSheet.compileMovement` (ACME.js 768-801): each axis selector is
compiled by `typeof` - inline text and callbacks become the callable,
`BigInt` masks become the fragment sequence selected by `selectBits` in
ascending bit order, and any other type (the constructor's number `0`,
an undefined constant) matches no case and leaves the routine as it
was.  `#moveRule` itself is only copied into a local here, never
mutated. -/
def RuleSheet.compileMovement (moves : List β) (s : RuleSheet α β) : RuleSheet α β :=
  let s1 := match s.moveRule.x with
    | .str f => { s with moveX := .fnc f }
    | .fn f => { s with moveX := .fnc f }
    | .mask m => { s with moveX := .seq (selectBits moves m) }
    | _ => s
  match s1.moveRule.y with
  | .str f => { s1 with moveY := .fnc f }
  | .fn f => { s1 with moveY := .fnc f }
  | .mask m => { s1 with moveY := .seq (selectBits moves m) }
  | _ => s1

/-- `RuleSheet.compileBitmapCollision` (ACME.js 652-763): one `bitmapPass`
over the `bitmap` sub-table; the per-axis branch tables are installed only
when the corresponding `use` flag was set, and the presence code is
returned.  The pass leaves the destructively shifted sub-table in
`collideRules.bitmap`. -/
def RuleSheet.compileBitmapCollision (colls : List α) (s : RuleSheet α β) :
    RuleSheet α β × Nat :=
  let p := bitmapPass colls s.collideRules.bitmap
  let (bm', yT, xT, uX, uY, out) := p
  let s1 := { s with collideRules := { s.collideRules with bitmap := bm' } }
  let s2 := if uY then { s1 with bitmapY := some yT } else s1
  let s3 := if uX then { s2 with bitmapX := some xT } else s2
  (s3, out)

/-- `RuleSheet.compile` (ACME.js 810-943): a no-op on a clean sheet;
otherwise one `bitmapPass` over the `component` sub-table builds the
pool-scan branch tables, then (scanning sheets only)
`compileBitmapCollision` runs and its presence code extends the `use`
flags, the pool-scan descriptors are installed for the axes in use (with
the tile-scan prefix and the follow block recorded), movement is compiled,
and `#dirty` is cleared.  The source finally sets
`game.compilingBegun = true` on the owning game, which is outside this
per-sheet state. -/
def RuleSheet.compile (colls : List α) (moves : List β) (s : RuleSheet α β) :
    RuleSheet α β :=
  if !s.dirty then s
  else
    let p := bitmapPass colls s.collideRules.component
    let (comp', yT, xT, uX, uY, _) := p
    let s1 := { s with collideRules := { s.collideRules with component := comp' } }
    let q :=
      if s1.scan then
        let r := RuleSheet.compileBitmapCollision colls s1
        (r.1, uX || decide (r.2 &&& 1 ≠ 0), uY || decide (r.2 &&& 2 ≠ 0))
      else (s1, uX, uY)
    let (s2, uX2, uY2) := q
    let s3 := if uX2 then { s2 with collideX := some ⟨s2.scan, s2.mustFollow, xT⟩ } else s2
    let s4 := if uY2 then { s3 with collideY := some ⟨s3.scan, s3.mustFollow, yT⟩ } else s3
    let s5 := RuleSheet.compileMovement moves s4
    { s5 with dirty := false }

/-- Movement behaviour code modelled by its semantics on a component. -/
abbrev MoveF := Component → Component

/-- The registry of Example 1, built through the registry operations:
movement rules `A -> 1` (code `x += 1`) and `B -> 2` (code `x += 2`) and
the shorthand `AB = [A, B]`.  Nothing else is touched - in particular the
side bitmasks `bitmasks.movement` still hold their initial `0n`. -/
def regC4E : Except JsError (RegistryState Nat MoveF) := do
  let codeA : MoveF := fun c => { c with x := c.x + 1 }
  let codeB : MoveF := fun c => { c with x := c.x + 2 }
  let (_, st) ← createMovementRule ⟨"A", none, codeA⟩ (initState (α := Nat) (β := MoveF))
  let (_, st) ← createMovementRule ⟨"B", none, codeB⟩ st
  let (_, st) ← createMovementShorthand ⟨"AB", some ["A", "B"]⟩ st
  pure st

/-- The registry fixture of `regC4E`, unwrapped. -/
def regC4 : RegistryState Nat MoveF := regC4E.toOption.getD initState

/-- The sheet of Example 1: `AB`'s mask applied through
`RuleSheet.movement` as a combined bitmask rule. -/
def sheetC4 : RuleSheet Nat MoveF :=
  (RuleSheet.movement regC4.bitmasks (RuleSheet.new "e")
      (.mask ((regC4.move_consts.lookup "AB").getD 0))).toOption.getD (RuleSheet.new "e")

/-- The sheet of Example 1 after compilation. -/
def compiledC4 : RuleSheet Nat MoveF :=
  RuleSheet.compile [] regC4.movements sheetC4

/-- Claim C4 counterexample: in exactly the registry the claim describes
(rules `A`, `B`, shorthand `AB` with mask `0b11 = 3` - first conjunct),
setting `AB` as the movement rule and compiling yields a routine that
leaves `x` at `0`, not `3`: `RuleSheet.movement` stores
`rule & bitmasks.movement.x`, and the x side-bitmask is still `0n`, so the
whole mask is dropped. -/
theorem movement_mask_filter_counterexample :
    regC4.move_consts.lookup "AB" = some 3 ∧
    (runMove compiledC4.moveX {}).x = 0 ∧
    (runMove compiledC4.moveX {}).x ≠ 3 := by
  refine ⟨by decide, rfl, by decide⟩

/-- The registry of Example 1 with `A` and `B` additionally OR'd into the
movement x side-bitmask via `editMovementBitmasks`. -/
def regC4A : RegistryState Nat MoveF :=
  editMovementBitmasks ⟨some ["A", "B"], none⟩ regC4

/-- The Example 1 sheet over the amended registry. -/
def sheetC4A : RuleSheet Nat MoveF :=
  (RuleSheet.movement regC4A.bitmasks (RuleSheet.new "e")
      (.mask ((regC4A.move_consts.lookup "AB").getD 0))).toOption.getD (RuleSheet.new "e")

/-- The amended Example 1 sheet after compilation. -/
def compiledC4A : RuleSheet Nat MoveF :=
  RuleSheet.compile [] regC4A.movements sheetC4A

/-- Claim C4 as amended: with rules `A` and `B` also OR'd into the
movement x side-bitmask (which `RuleSheet.movement` ANDs a combined
bitmask rule against), the compiled routine increases the component's x by
3 - in particular from `x = 0` to `3`. -/
theorem movement_mask_with_sidemask (c : Component) :
    (runMove compiledC4A.moveX c).x = c.x + 3 := by
  show c.x + 1 + 2 = c.x + 3
  ring

/-- Concrete instance of the amended C4 theorem, at a component with
`x = 0`. -/
theorem movement_mask_with_sidemask_witness :
    (runMove compiledC4A.moveX {}).x = ({} : Component).x + 3 :=
  movement_mask_with_sidemask {}

/-- A dirty scanning rulesheet with a single bitmap collision rule: on
neighbour key `#`, the top side holds the `BigInt` mask `0b10`.  The
collision registry has two behaviour fragments (tags 7 and 8). -/
def sheetC5 : RuleSheet Nat Nat :=
  { RuleSheet.new "wall" with
    dirty := true
    collideRules :=
      { bitmap := [("#", { top := .mask 2, right := .udf, bottom := .udf, left := .udf })]
        component := [] } }

/-- Claim C5, at the failing input: before compilation the stored rule for
`#` has top mask `0b10`; after `compile()` the very same stored slot holds
mask `0`, because the compiler's bit-expansion loop shifts the stored rule
object's field in place (`rule.top >>= 1n` through the alias).  The dirty
flag is cleared as specified, so a later re-registration and recompile
would see the emptied rule data. -/
theorem compile_destroys_bitmask_rules :
    (sheetC5.collideRules.bitmap.lookup "#").map SideRules.top = some (RuleVal.mask 2) ∧
    ((RuleSheet.compile [7, 8] ([] : List Nat) sheetC5).collideRules.bitmap.lookup "#").map
        SideRules.top = some (RuleVal.mask 0) ∧
    (RuleSheet.compile [7, 8] ([] : List Nat) sheetC5).dirty = false ∧
    RuleVal.mask (α := Nat) 0 ≠ RuleVal.mask 2 := by
  refine ⟨by decide, by decide, by decide, by decide⟩

/-- A movement constant table containing the follow composites. -/
def moveConstsC7 : List (String × Nat) := [("FOLLOW_X", 16), ("FOLLOW_Y", 32)]

/-- The follow target's bounding box. -/
def ghostTargetC7 : Ghost := { x := 5, y := 5, width := 2, height := 2 }

/-- A component currently tracking `ghostTargetC7`, its own ghost snapshot
still zeroed. -/
def compTrackingC7 : Component := { followee := some ghostTargetC7 }

/-- Claim C7, at the failing input: `RuleSheet.follow` does install the
per-tick hook, but the hook's guard is inverted (`if (!$component.followee)`),
so on a component that IS tracking a target it returns with the ghost
snapshot untouched (second and third conjuncts: the ghost stays zeroed and
differs from the target's box), and on a component tracking nothing it
dereferences `null` and throws a `TypeError` (fourth conjunct) - it never
copies the tracked target's box into the ghost. -/
theorem follow_tick_hook_inverted :
    (RuleSheet.follow moveConstsC7 (RuleSheet.new "chaser" : RuleSheet Nat Nat) "T").tick
        = TickHook.followT ∧
    runTick TickHook.followT compTrackingC7 = .ok compTrackingC7 ∧
    compTrackingC7.ghost ≠ ghostTargetC7 ∧
    runTick TickHook.followT ({} : Component)
        = .error (.typeError "cannot read properties of null") := by
  refine ⟨rfl, rfl, by decide, rfl⟩

/-- `Component.init` (ACME.js 973-1007): throws - before any mutation -
when the game has no rulesheet under the type key; otherwise resets the
component in place from the rulesheet's declared values.  The source also
caches the sheet's compiled routine references and runs the sheet's
constructor callback (`noop` unless supplied) and is modelled on the data
fields only. -/
def Component.init (sheets : List (String × RuleSheet α β)) (c : Component)
    (x y : Rat) (ty : String) : Except JsError Component :=
  match sheets.lookup ty with
  | none =>
      .error (.thrown "ACME_Component_Error: No rulesheet of this type exists for the game")
  | some code =>
      .ok { c with
        key := ty
        x := x, originX := x
        y := y, originY := y
        width := code.width, originW := code.width
        height := code.height, originH := code.height
        velX := 0, velY := 0
        accX := code.accX
        accY := code.accY + code.gravity
        speedX := code.speedX, speedY := code.speedY
        gravity := code.gravity, friction := code.friction
        dead := false
        health := 100
        flag0 := false, flag1 := false, flag2 := false, flag3 := false
        canJump := false
        followee := none
        ghost := { x := 0, y := 0, width := 0, height := 0 }
        resetsWithRest := code.resets }

/-- The entity pool: the slot array and the `length` counter the source
keeps alongside it (they agree except after a failed grow, modelled
faithfully below). -/
structure Pool where
  list : List Component := []
  length : Nat := 0
  deriving Repr, DecidableEq

/-- The dead-slot scan of `Pool.recycle` (`let i = this.length; while (i--)`):
walk the indices from `length - 1` down to `0` and return the first index
holding a dead component.  An index beyond the actual array reads
`undefined` and the `n.dead` access throws. -/
def scanDead (l : List Component) : Nat → Except JsError (Option Nat)
  | 0 => .ok none
  | i + 1 =>
      match l[i]? with
      | none => .error (.typeError "cannot read properties of undefined")
      | some c => if c.dead then .ok (some i) else scanDead l i

/-- `Pool.recycle` (ACME.js 1359-1375): reuse the highest-index dead slot
by re-initialising it in place when one exists; otherwise grow - a new
component gets `index = this.length++` (the counter increments before
`init` runs, so a throwing `init` leaves the counter incremented without a
push) and is appended.  Returns the pool as left in place together with
the outcome.  The sheet's optional `oncreate` hook is not modelled. -/
def Pool.recycle (sheets : List (String × RuleSheet α β)) (p : Pool)
    (x y : Rat) (ty : String) : Pool × Except JsError Component :=
  match scanDead p.list p.length with
  | .error e => (p, .error e)
  | .ok (some i) =>
      match Component.init sheets ((p.list[i]?).getD {}) x y ty with
      | .ok c => ({ p with list := p.list.set i c }, .ok c)
      | .error e => (p, .error e)
  | .ok none =>
      match Component.init sheets { index := p.length } x y ty with
      | .ok c => ({ list := p.list ++ [c], length := p.length + 1 }, .ok c)
      | .error e => ({ p with length := p.length + 1 }, .error e)

/-- A whole sequence of `recycle` calls, keeping the pool state. -/
def runRecycles (sheets : List (String × RuleSheet α β)) :
    Pool → List (Rat × Rat × String) → Pool
  | p, [] => p
  | p, a :: rest => runRecycles sheets (Pool.recycle sheets p a.1 a.2.1 a.2.2).1 rest

lemma recycle_length_mono (sheets : List (String × RuleSheet α β)) (p : Pool)
    (x y : Rat) (ty : String) :
    p.length ≤ (Pool.recycle sheets p x y ty).1.length := by
  unfold Pool.recycle
  cases h : scanDead p.list p.length with
  | error e => simp [h]
  | ok o =>
      cases o with
      | some i =>
          cases hi : Component.init sheets ((p.list[i]?).getD {}) x y ty with
          | ok c => simp [h, hi]
          | error e => simp [h, hi]
      | none =>
          cases hi : Component.init sheets { index := p.length } x y ty with
          | ok c => simp [h, hi]
          | error e => simp [h, hi]

lemma runRecycles_length_mono (sheets : List (String × RuleSheet α β))
    (calls : List (Rat × Rat × String)) (p : Pool) :
    p.length ≤ (runRecycles sheets p calls).length := by
  induction calls generalizing p with
  | nil => exact Nat.le_refl _
  | cons a rest ih =>
      exact Nat.le_trans (recycle_length_mono sheets p a.1 a.2.1 a.2.2)
        (ih (Pool.recycle sheets p a.1 a.2.1 a.2.2).1)

/-- Claim C9: `recycle` reuses the (highest-index) dead slot, reinitialised
in place, whenever the dead-slot scan finds one and the type is registered
- the slot array's length is then unchanged; the slot array grows only
when the scan found every slot live; and the pool length never decreases,
in one call or across any sequence of calls. -/
theorem recycle_slot_policy {α β : Type} (sheets : List (String × RuleSheet α β))
    (p : Pool) (x y : Rat) (ty : String) :
    (∀ i, scanDead p.list p.length = .ok (some i) → (sheets.lookup ty).isSome = true →
      ∃ c, Component.init sheets ((p.list[i]?).getD {}) x y ty = .ok c ∧
        (Pool.recycle sheets p x y ty).1 = { p with list := p.list.set i c } ∧
        (Pool.recycle sheets p x y ty).1.list.length = p.list.length) ∧
    ((Pool.recycle sheets p x y ty).1.list.length ≠ p.list.length →
      scanDead p.list p.length = .ok none) ∧
    p.length ≤ (Pool.recycle sheets p x y ty).1.length ∧
    (∀ calls : List (Rat × Rat × String),
      p.length ≤ (runRecycles sheets p calls).length) := by
  refine ⟨?_, ?_, recycle_length_mono sheets p x y ty, fun calls => runRecycles_length_mono sheets calls p⟩
  · intro i hscan hreg
    obtain ⟨code, hcode⟩ := Option.isSome_iff_exists.mp hreg
    cases hi : Component.init sheets ((p.list[i]?).getD {}) x y ty with
    | error e => simp [Component.init, hcode] at hi
    | ok c =>
        refine ⟨c, rfl, ?_, ?_⟩
        · simp [Pool.recycle, hscan, hi]
        · simp [Pool.recycle, hscan, hi]
  · intro hne
    by_contra hnone
    apply hne
    unfold Pool.recycle
    cases h : scanDead p.list p.length with
    | error e => simp [h]
    | ok o =>
        cases o with
        | some i =>
            cases hi : Component.init sheets ((p.list[i]?).getD {}) x y ty with
            | ok c => simp [h, hi]
            | error e => simp [h, hi]
        | none => exact absurd h hnone

/-- A game with one registered rulesheet under `t`. -/
def sheetsC9 : List (String × RuleSheet Nat Nat) := [("t", RuleSheet.new "t")]

/-- A pool holding a single dead slot. -/
def poolC9 : Pool := { list := [{ dead := true }], length := 1 }

/-- Concrete instance of the C9 theorem: recycling into a pool whose only
slot is dead reuses that slot - the slot array keeps length 1. -/
theorem recycle_slot_policy_witness :
    (Pool.recycle sheetsC9 poolC9 0 0 "t").1.list.length = 1 := by
  obtain ⟨hreuse, -, -, -⟩ := recycle_slot_policy sheetsC9 poolC9 0 0 "t"
  obtain ⟨c, -, -, hlen⟩ := hreuse 0 (by decide) (by decide)
  exact hlen

/-- The game state consumed by `createRulesheet`: the per-game rulesheet
table and the strict-mode latch set by the first compilation. -/
structure Game (α β : Type) where
  rulesheets : List (String × RuleSheet α β)
  compilingBegun : Bool
  deriving DecidableEq

/-- The strict-mode late-registration error of `Game.createRulesheet`. -/
def lateRegistrationError : JsError :=
  .thrown "ACME_RuleSheet_Error: A rulesheet from this game was compiled before the creation of this rulesheet.  This could cause collisions with it to be interpreted as bitmap collisions."

/-- `Game.createRulesheet` (ACME.js 1577-1587): an already-registered key
returns the existing sheet at once; a new key gets a fresh sheet inserted
into the game's table (and the module-global `templates` table, not
modelled) BEFORE the strict-mode check, which throws - after the insertion
- when any sheet of this game has already been compiled.  The constructor
callback argument (`noop` by default) is omitted. -/
def Game.createRulesheet (strictMode : Bool) (g : Game α β) (char : String) :
    Game α β × Except JsError (RuleSheet α β) :=
  match g.rulesheets.lookup char with
  | some s => (g, .ok s)
  | none =>
      let e : RuleSheet α β := RuleSheet.new char
      let g' := { g with rulesheets := (char, e) :: g.rulesheets }
      if strictMode && g.compilingBegun then
        (g', .error lateRegistrationError)
      else
        (g', .ok e)

/-- Claim C10: `createRulesheet` on a registered key returns the existing
sheet and never throws, whatever the strict mode and compilation latch;
on a new key the fresh sheet is inserted into the game's table
unconditionally, the call throws exactly when strict mode is on and
compilation has begun, and even then the new key looks up to the fresh
sheet in the post-call table - the throw is not atomic with respect to
registration. -/
theorem createRulesheet_reuse_and_nonatomic {α β : Type} (sm : Bool)
    (g : Game α β) (k : String) :
    (∀ s, g.rulesheets.lookup k = some s →
      Game.createRulesheet sm g k = (g, .ok s)) ∧
    (g.rulesheets.lookup k = none →
      Game.createRulesheet sm g k =
        ({ g with rulesheets := (k, RuleSheet.new k) :: g.rulesheets },
          if sm && g.compilingBegun then .error lateRegistrationError
          else .ok (RuleSheet.new k)) ∧
      (Game.createRulesheet sm g k).1.rulesheets.lookup k = some (RuleSheet.new k)) := by
  constructor
  · intro s hs
    simp [Game.createRulesheet, hs]
  · intro hnone
    have hstep : Game.createRulesheet sm g k =
        ({ g with rulesheets := (k, RuleSheet.new k) :: g.rulesheets },
          if sm && g.compilingBegun then .error lateRegistrationError
          else .ok (RuleSheet.new k)) := by
      simp only [Game.createRulesheet, hnone]
      cases hsm : (sm && g.compilingBegun) <;> simp [hsm]
    refine ⟨hstep, ?_⟩
    rw [hstep]
    simp [List.lookup]

/-- A game with an empty rulesheet table whose compilation latch is set. -/
def gameC10 : Game Nat Nat := { rulesheets := [], compilingBegun := true }

/-- Concrete instance of the C10 theorem: in strict mode, after compilation
has begun, creating a new rulesheet throws the late-registration error -
and the sheet is nevertheless registered in the game's table. -/
theorem createRulesheet_reuse_and_nonatomic_witness :
    (Game.createRulesheet true gameC10 "a").2 = .error lateRegistrationError ∧
    (Game.createRulesheet true gameC10 "a").1.rulesheets.lookup "a"
      = some (RuleSheet.new "a") := by
  obtain ⟨-, hnew⟩ := createRulesheet_reuse_and_nonatomic true gameC10 "a"
  obtain ⟨hstep, hlook⟩ := hnew rfl
  refine ⟨?_, hlook⟩
  rw [hstep]
  rfl

/-- The config object consumed by the flat-format arm of
`Game.parseLevel`: the cell sequence, and the optional `width`/`height`
properties (`none` when absent). -/
structure LevelConfig where
  data : List String
  width : Option Nat
  height : Option Nat

/-- The destination level record `{width, height, data}`; `width` is
`none` when it was left `undefined`. -/
structure LevelDest where
  width : Option Nat
  height : Nat
  data : List (List (Option String))
  deriving Repr, DecidableEq

/-- The flat-format arm (`"string"` / `"char[]"` / `"number[]"` /
`"int[]"`) of `Game.parseLevel` (ACME.js 1471-1500).  Before the branch
the source kills every pooled entity and empties the destination's data;
the branch then throws `ACME_Level_Error` exactly when the config HAS an
own `width` property (`if (config.hasOwnProperty("width")) throw ...`).
When `width` is absent, `w = destination.width = config.width` is
`undefined`, and `h = config.height ?? ((l / w) | 0)` is the given height
or `(l / undefined) | 0 = 0`: a positive `h` reaches `row.length = w` with
`w` undefined, which throws a `RangeError`; `h = 0` (given or computed)
skips the loops and leaves the emptied destination with `width`
undefined. -/
def parseLevelFlat (cfg : LevelConfig) : Except JsError LevelDest :=
  if cfg.width.isSome then
    .error (.thrown "ACME_Level_Error: A flat-format level string MUST contain a width property!")
  else
    match cfg.height with
    | some (_ + 1) => .error (.rangeError "Invalid array length")
    | some 0 => .ok { width := none, height := 0, data := [] }
    | none => .ok { width := none, height := 0, data := [] }

/-- The Example 5 config: format `"string"`, data `"#.#."`, width 2. -/
def levelCfgC2 : LevelConfig :=
  { data := ["#", ".", "#", "."], width := some 2, height := none }

/-- Claim C2, at the failing input: parsing the Example 5 level - format
`"string"`, data `"#.#."`, width 2 - does not produce a grid at all: the
width guard is inverted, so the parse throws the `ACME_Level_Error`
precisely because the required `width` property IS present. -/
theorem parseLevel_flat_width_guard_throws :
    parseLevelFlat levelCfgC2 =
      .error (.thrown "ACME_Level_Error: A flat-format level string MUST contain a width property!") := rfl

end ACME
